import Mathlib

/-!
# hello-tailscale: the two HTTP handlers, the router and the process life cycle

A shallow embedding of `main.go`.  The repository's own code (`main`,
`helloHandler`, `healthHandler`) is translated statement by statement.  The
pieces of the Go standard library that the code calls (`net/http`'s response
writer, `http.Error`, `http.ServeMux`, `path.Clean`) are embedded from their
documented behaviour, as far as the handlers and the router exercise them.
`ServeMux` follows the classic matching algorithm: an exact match, else the
longest registered subtree, after the request path has been brought into
canonical form by a redirect.  `routed` is the answer of the router alone; what
the HTTP server does before a request reaches the router is not embedded.

Go strings are byte strings.  They are embedded as Lean strings; every byte the
algorithms below compare (`/`, `.`, `*`) is ASCII, and an ASCII byte never occurs
inside a multi-byte UTF-8 sequence, so comparing code points agrees with
comparing bytes.
-/

namespace HelloTailscale

/-! ## net/http: headers, requests, response writer -/

/-- The header map `http.Header`, as an association list from a canonical key to
its single value.  Every key used below is already in canonical MIME form. -/
abbrev Header := List (String × String)

/-- Go: `h.Set(key, value)`, replace whatever is stored under `key`. -/
def Header.Set (h : Header) (key value : String) : Header :=
  (key, value) :: h.filter (fun kv => kv.1 != key)

/-- Go: `h.Del(key)`. -/
def Header.Del (h : Header) (key : String) : Header :=
  h.filter (fun kv => kv.1 != key)

/-- Go: `h.Get(key)`, the empty string when the key is absent. -/
def Header.Get (h : Header) (key : String) : String :=
  match h.find? (fun kv => kv.1 == key) with
  | some kv => kv.2
  | none => ""

/-- Go: `_, ok := h[key]`. -/
def Header.has (h : Header) (key : String) : Bool :=
  h.any (fun kv => kv.1 == key)

/-- The fields of `url.URL` that the program and the router read. -/
structure URL where
  Path : String
  Host : String := ""
  RawQuery : String := ""
deriving DecidableEq, Repr

/-- The fields of `http.Request` that the program and the router read. -/
structure Request where
  Method : String
  URL : URL
  Host : String := ""
  RequestURI : String := ""
  ProtoMajor : Nat := 1
  ProtoMinor : Nat := 1
  Header : Header := []
  Body : String := ""
deriving DecidableEq, Repr

/-- Go: `r.ProtoAtLeast(major, minor)`. -/
def Request.ProtoAtLeast (r : Request) (major minor : Nat) : Bool :=
  r.ProtoMajor > major || (r.ProtoMajor == major && r.ProtoMinor >= minor)

/-- What a handler has done to its `http.ResponseWriter`: the live header map,
the status line together with the header snapshot taken when it was written
(`none` until `WriteHeader` has run), and the body bytes written so far. -/
structure ResponseWriter where
  header : Header
  wrote : Option (Nat × Header)
  body : String
deriving DecidableEq, Repr

/-- Go: `httptest.NewRecorder()`; also the state of a fresh server response. -/
def NewRecorder : ResponseWriter :=
  { header := [], wrote := none, body := "" }

/-- Go: `w.Header().Set(key, value)`. -/
def ResponseWriter.HeaderSet (w : ResponseWriter) (key value : String) : ResponseWriter :=
  { w with header := w.header.Set key value }

/-- Go: `w.Header().Del(key)`. -/
def ResponseWriter.HeaderDel (w : ResponseWriter) (key : String) : ResponseWriter :=
  { w with header := w.header.Del key }

/-- Go: `w.WriteHeader(code)`.  Only the first call counts; it fixes the status
and the headers that go out. -/
def ResponseWriter.WriteHeader (w : ResponseWriter) (code : Nat) : ResponseWriter :=
  match w.wrote with
  | some _ => w
  | none => { w with wrote := some (code, w.header) }

/-- Go: `w.Write(b)`.  A write before `WriteHeader` implies `WriteHeader(200)`. -/
def ResponseWriter.Write (w : ResponseWriter) (b : String) : ResponseWriter :=
  let w1 := w.WriteHeader 200
  { w1 with body := w1.body ++ b }

/-- Go: `fmt.Fprint(w, s)` for a single string operand. -/
def Fprint (w : ResponseWriter) (s : String) : ResponseWriter :=
  w.Write s

/-- Go: `fmt.Fprintln(w, s)` for a single string operand. -/
def Fprintln (w : ResponseWriter) (s : String) : ResponseWriter :=
  w.Write (s ++ "\n")

/-- The response a client (or `ResponseRecorder.Result()`) observes. -/
structure Response where
  StatusCode : Nat
  Header : Header
  Body : String
deriving DecidableEq, Repr

/-- Go: `w.Result()`.  A handler that never wrote a status gets 200 and the
headers as they stand. -/
def ResponseWriter.Result (w : ResponseWriter) : Response :=
  match w.wrote with
  | some (code, snap) => { StatusCode := code, Header := snap, Body := w.body }
  | none => { StatusCode := 200, Header := w.header, Body := w.body }

def StatusOK : Nat := 200
def StatusMovedPermanently : Nat := 301
def StatusBadRequest : Nat := 400
def StatusNotFound : Nat := 404

/-- Go: `http.Error(w, error, code)`. -/
def Error (w : ResponseWriter) (error : String) (code : Nat) : ResponseWriter :=
  let w := w.HeaderDel "Content-Length"
  let w := w.HeaderSet "Content-Type" "text/plain; charset=utf-8"
  let w := w.HeaderSet "X-Content-Type-Options" "nosniff"
  let w := w.WriteHeader code
  Fprintln w error

/-- Go: `http.NotFound(w, r)`. -/
def NotFound (w : ResponseWriter) (_r : Request) : ResponseWriter :=
  Error w "404 page not found" StatusNotFound

/-- Go: `strings.Contains(s, substr)`, as a proposition on the characters. -/
def Contains (s substr : String) : Prop :=
  substr.data <:+: s.data

instance (s substr : String) : Decidable (Contains s substr) := by
  unfold Contains; infer_instance

/-! ## main.go: the handlers -/

/-- The raw string literal that `helloHandler` prints, line by line. -/
def helloPage : String :=
  "<!DOCTYPE html>\n" ++
  "<html lang=\"en\">\n" ++
  "<head>\n" ++
  "    <meta charset=\"UTF-8\">\n" ++
  "    <meta name=\"viewport\" content=\"width=device-width, initial-scale=1.0\">\n" ++
  "    <title>Hello Tailscale</title>\n" ++
  "    <style>\n" ++
  "        body \x7b\n" ++
  "            font-family: -apple-system, BlinkMacSystemFont, \x27Segoe UI\x27, Roboto, Oxygen, Ubuntu, sans-serif;\n" ++
  "            display: flex;\n" ++
  "            justify-content: center;\n" ++
  "            align-items: center;\n" ++
  "            min-height: 100vh;\n" ++
  "            margin: 0;\n" ++
  "            background: linear-gradient(135deg, #667eea 0%, #764ba2 100%);\n" ++
  "            color: white;\n" ++
  "        \x7d\n" ++
  "        .container \x7b\n" ++
  "            text-align: center;\n" ++
  "            padding: 2rem;\n" ++
  "        \x7d\n" ++
  "        h1 \x7b\n" ++
  "            font-size: 3rem;\n" ++
  "            margin-bottom: 1rem;\n" ++
  "        \x7d\n" ++
  "        p \x7b\n" ++
  "            font-size: 1.2rem;\n" ++
  "            opacity: 0.9;\n" ++
  "        \x7d\n" ++
  "        .tailscale-badge \x7b\n" ++
  "            margin-top: 2rem;\n" ++
  "            padding: 0.5rem 1rem;\n" ++
  "            background: rgba(255,255,255,0.2);\n" ++
  "            border-radius: 20px;\n" ++
  "            font-size: 0.9rem;\n" ++
  "        \x7d\n" ++
  "    </style>\n" ++
  "</head>\n" ++
  "<body>\n" ++
  "    <div class=\"container\">\n" ++
  "        <h1>\uF8FF\u00FC\u00E5\u00EA Hello, World!</h1>\n" ++
  "        <p>Welcome to the Tailscale-powered webserver</p>\n" ++
  "        <div class=\"tailscale-badge\">Connected via Tailscale</div>\n" ++
  "    </div>\n" ++
  "</body>\n" ++
  "</html>"

/-- The function `helloHandler` of main.go. -/
def helloHandler (w : ResponseWriter) (r : Request) : ResponseWriter :=
  if r.URL.Path != "/" then
    NotFound w r
  else
    let w := w.HeaderSet "Content-Type" "text/html; charset=utf-8"
    Fprint w helloPage

/-- The literal that `healthHandler` prints. -/
def healthBody : String := "\x7b\"status\":\"healthy\"\x7d"

/-- The function `healthHandler` of main.go. -/
def healthHandler (w : ResponseWriter) (_r : Request) : ResponseWriter :=
  let w := w.HeaderSet "Content-Type" "application/json"
  let w := w.WriteHeader StatusOK
  Fprint w healthBody

/-! ## path.Clean and the router's cleanPath -/

/-- Go, in `path.Clean`: `for out.w > dotdot && out.index(out.w) != '/' { out.w-- }`.
The buffer `buf[0:w]` is held reversed (its head is `buf[w-1]`); `last` is
`buf[w]`, the byte dropped most recently. -/
def backtrack (dotdot : Nat) : List Char → Char → List Char
  | [], _ => []
  | c :: rest, last =>
    if (c :: rest).length > dotdot && last != '/' then backtrack dotdot rest c else c :: rest

/-- Go, in `path.Clean`: the loop `for r < n { switch { ... } }`.  `rest` is
`path[r:]`, `out` the reversed output buffer.  Every round consumes at least one
byte of `rest`, so `rest.length` rounds of fuel are enough. -/
def cleanLoop (rooted : Bool) : Nat → List Char → List Char → Nat → List Char
  | 0, _, out, _ => out
  | _ + 1, [], out, _ => out
  | fuel + 1, c :: t, out, dotdot =>
    if c == '/' then
      -- empty path element
      cleanLoop rooted fuel t out dotdot
    else if c == '.' && (t.isEmpty || t.head? == some '/') then
      -- . element
      cleanLoop rooted fuel t out dotdot
    else if c == '.' && t.head? == some '.' && (t.tail.isEmpty || t.tail.head? == some '/') then
      -- .. element: remove to last /
      match out with
      | last :: out1 =>
        if (last :: out1).length > dotdot then
          cleanLoop rooted fuel t.tail (backtrack dotdot out1 last) dotdot
        else if !rooted then
          let out2 := '.' :: '.' :: '/' :: last :: out1
          cleanLoop rooted fuel t.tail out2 out2.length
        else
          cleanLoop rooted fuel t.tail (last :: out1) dotdot
      | [] =>
        if !rooted then
          cleanLoop rooted fuel t.tail ['.', '.'] 2
        else
          cleanLoop rooted fuel t.tail [] dotdot
    else
      -- real path element: add slash if needed, then copy the element
      let out1 := if (rooted && out.length != 1) || (!rooted && out.length != 0) then '/' :: out else out
      let elem := (c :: t).takeWhile (fun x => x != '/')
      cleanLoop rooted fuel ((c :: t).dropWhile (fun x => x != '/')) (elem.reverse ++ out1) dotdot

/-- Go: `path.Clean(path)`. -/
def Clean (path : String) : String :=
  if path == "" then
    "."
  else
    let rooted := path.data.head? == some '/'
    let out :=
      if rooted then cleanLoop true path.data.length path.data.tail ['/'] 1
      else cleanLoop false path.data.length path.data [] 0
    if out.length == 0 then "." else String.mk out.reverse

/-- Go: `cleanPath(p)` of net/http, the canonical form the router enforces. -/
def cleanPath (p : String) : String :=
  if p == "" then
    "/"
  else
    let p := if p.data.head? != some '/' then "/" ++ p else p
    let np := Clean p
    -- path.Clean removes the trailing slash except for root; put it back
    if p.data.getLast? == some '/' && np != "/" then
      if p.utf8ByteSize == np.utf8ByteSize + 1 && decide (np.data <+: p.data) then p
      else np ++ "/"
    else
      np

/-! ## http.ServeMux -/

/-- Go: `http.Handler`, as the effect of `ServeHTTP` on the response writer. -/
abbrev Handler := ResponseWriter → Request → ResponseWriter

structure muxEntry where
  h : Handler
  pattern : String

/-- Go: `http.ServeMux`.  The map `m` is an association list keyed by pattern,
`es` holds the entries whose pattern ends in a slash, longest first. -/
structure ServeMux where
  m : List muxEntry := []
  es : List muxEntry := []
  hosts : Bool := false

/-- Go: `http.NewServeMux()`. -/
def NewServeMux : ServeMux := {}

/-- Go: `mux.m[key]`. -/
def ServeMux.lookup (mux : ServeMux) (key : String) : Option muxEntry :=
  mux.m.find? (fun e => e.pattern == key)

/-- Go: `appendSorted(es, e)`, insert before the first entry with a shorter pattern. -/
def appendSorted : List muxEntry → muxEntry → List muxEntry
  | [], e => [e]
  | x :: rest, e =>
    if x.pattern.utf8ByteSize < e.pattern.utf8ByteSize then e :: x :: rest
    else x :: appendSorted rest e

/-- Go: `mux.Handle(pattern, handler)`; `none` stands for its panics (empty
pattern, pattern registered twice). -/
def ServeMux.Handle (mux : ServeMux) (pattern : String) (handler : Handler) : Option ServeMux :=
  if pattern == "" then
    none
  else if (mux.lookup pattern).isSome then
    none
  else
    let e : muxEntry := { h := handler, pattern := pattern }
    some { m := e :: mux.m
           es := if pattern.data.getLast? == some '/' then appendSorted mux.es e else mux.es
           hosts := mux.hosts || pattern.data.head? != some '/' }

/-- Go: `mux.HandleFunc(pattern, handler)`. -/
def ServeMux.HandleFunc (mux : ServeMux) (pattern : String) (handler : Handler) : Option ServeMux :=
  mux.Handle pattern handler

/-- Go: `mux.match(path)`: an exact match first, then the longest registered
subtree pattern that is a prefix of the path. -/
def ServeMux.match_ (mux : ServeMux) (path : String) : Option muxEntry :=
  match mux.lookup path with
  | some e => some e
  | none => mux.es.find? (fun e => decide (e.pattern.data <+: path.data))

/-- Go: `http.NotFoundHandler()`. -/
def NotFoundHandler : Handler := NotFound

/-- Go: `mux.handler(host, path)`. -/
def ServeMux.handler (mux : ServeMux) (host path : String) : Handler × String :=
  let found := if mux.hosts then mux.match_ (host ++ path) else none
  let found := match found with
    | some e => some e
    | none => mux.match_ path
  match found with
  | some e => (e.h, e.pattern)
  | none => (NotFoundHandler, "")

/-- Go: `mux.shouldRedirectRLocked(host, path)`: is `path + "/"` registered
while `path` itself is not. -/
def ServeMux.shouldRedirectRLocked (mux : ServeMux) (host path : String) : Bool :=
  if (mux.lookup path).isSome || (mux.lookup (host ++ path)).isSome then
    false
  else if path.utf8ByteSize == 0 then
    false
  else if (mux.lookup (path ++ "/")).isSome || (mux.lookup (host ++ path ++ "/")).isSome then
    path.data.getLast? != some '/'
  else
    false

/-- String helpers of the standard library that only shape the text of a
redirect answer or pick the host; they are left abstract. -/
structure Lib where
  /-- Go: `stripHostPort(h)`. -/
  stripHostPort : String → String
  /-- Go: `u.String()`. -/
  urlString : URL → String
  /-- Go, in `http.Redirect`: make a relative target absolute and clean it. -/
  resolveTarget : Request → String → String
  /-- Go: `hexEscapeNonASCII(url)`. -/
  hexEscapeNonASCII : String → String
  /-- Go: `htmlEscape(url)`. -/
  htmlEscape : String → String

/-- Go: `http.StatusText(code)` for the codes that occur here. -/
def StatusText (code : Nat) : String :=
  if code == 200 then "OK"
  else if code == 301 then "Moved Permanently"
  else if code == 400 then "Bad Request"
  else if code == 404 then "Not Found"
  else ""

/-- Go: `http.Redirect(w, r, url, code)`. -/
def Redirect (lib : Lib) (w : ResponseWriter) (r : Request) (url : String) (code : Nat) :
    ResponseWriter :=
  let url := lib.resolveTarget r url
  let hadCT := w.header.has "Content-Type"
  let w := w.HeaderSet "Location" (lib.hexEscapeNonASCII url)
  let w :=
    if !hadCT && (r.Method == "GET" || r.Method == "HEAD") then
      w.HeaderSet "Content-Type" "text/html; charset=utf-8"
    else w
  let w := w.WriteHeader code
  -- Shouldn't send the body for POST or HEAD; that leaves GET.
  if !hadCT && r.Method == "GET" then
    Fprintln w ("<a href=\"" ++ lib.htmlEscape url ++ "\">" ++ StatusText code ++ "</a>.\n")
  else w

/-- Go: `http.RedirectHandler(url, code)`. -/
def RedirectHandler (lib : Lib) (url : String) (code : Nat) : Handler :=
  fun w r => Redirect lib w r url code

/-- Go: `mux.Handler(r)`: the handler to use for the request and the pattern
that matched.  A path that is not in canonical form is answered by a redirect
to its canonical form; CONNECT requests are not canonicalised. -/
def ServeMux.Handler (lib : Lib) (mux : ServeMux) (r : Request) : Handler × String :=
  if r.Method == "CONNECT" then
    if mux.shouldRedirectRLocked r.URL.Host r.URL.Path then
      let u : URL := { Path := r.URL.Path ++ "/", RawQuery := r.URL.RawQuery }
      (RedirectHandler lib (lib.urlString u) StatusMovedPermanently, u.Path)
    else
      mux.handler r.Host r.URL.Path
  else
    let host := lib.stripHostPort r.Host
    let path := cleanPath r.URL.Path
    if mux.shouldRedirectRLocked host path then
      let u : URL := { Path := path ++ "/", RawQuery := r.URL.RawQuery }
      (RedirectHandler lib (lib.urlString u) StatusMovedPermanently, u.Path)
    else if path != r.URL.Path then
      let u : URL := { Path := path, RawQuery := r.URL.RawQuery }
      (RedirectHandler lib (lib.urlString u) StatusMovedPermanently, (mux.handler host path).2)
    else
      mux.handler host r.URL.Path

/-- Go: `mux.ServeHTTP(w, r)`. -/
def ServeMux.ServeHTTP (lib : Lib) (mux : ServeMux) (w : ResponseWriter) (r : Request) :
    ResponseWriter :=
  if r.RequestURI == "*" then
    let w := if r.ProtoAtLeast 1 1 then w.HeaderSet "Connection" "close" else w
    w.WriteHeader StatusBadRequest
  else
    (mux.Handler lib r).1 w r

/-! ## main.go: the router built in main -/

/-- The three statements of `main` that build the router:
`mux := http.NewServeMux()`, `mux.HandleFunc("/", helloHandler)`,
`mux.HandleFunc("/health", healthHandler)`. -/
def buildMux : Option ServeMux :=
  (NewServeMux.HandleFunc "/" helloHandler).bind fun mux =>
    mux.HandleFunc "/health" healthHandler

/-- The router after the two registrations. -/
def mainMux : ServeMux :=
  { m := [{ h := healthHandler, pattern := "/health" }, { h := helloHandler, pattern := "/" }]
    es := [{ h := helloHandler, pattern := "/" }]
    hosts := false }

/-- The response of the router of `main` to a request on a fresh writer. -/
def routed (lib : Lib) (r : Request) : Response :=
  (mainMux.ServeHTTP lib NewRecorder r).Result

/-- A library instance for evaluating examples: no port to strip, no escaping needed. -/
def plainLib : Lib :=
  { stripHostPort := fun h => h
    urlString := fun u => if u.RawQuery == "" then u.Path else u.Path ++ "?" ++ u.RawQuery
    resolveTarget := fun _ url => url
    hexEscapeNonASCII := fun s => s
    htmlEscape := fun s => s }

/-! ## main.go: the process life cycle

`main` talks to the outside (the tsnet client, the HTTP server, the signal
channel, the logger).  It is embedded as a function from the outcomes of these
calls to the sequence of calls it makes and the way the process ends.  The
embedding follows the main goroutine; of the serving goroutine it records the
start, its log line, and whether and when its `log.Fatalf` ends the process:
while main waits, or at some step of main after a signal has been received. -/

/-- The fields of `tsnet.Server` that `main` sets.  `Dir` is a Go string; its
zero value, the empty string, means that tsnet picks the platform default. -/
structure Server where
  Hostname : String
  Dir : String := ""
deriving DecidableEq, Repr

/-- The values of the three command-line flags after `flag.Parse()`. -/
structure Flags where
  hostname : String
  port : Int
  stateDir : String
deriving DecidableEq, Repr

/-- The defaults declared by `flag.String("hostname", "hello-tailscale", ...)`,
`flag.Int("port", 80, ...)` and `flag.String("state-dir", "", ...)`; a flag
that is not given on the command line keeps its default. -/
def flagDefaults : Flags :=
  { hostname := "hello-tailscale", port := 80, stateDir := "" }

/-- Go: the verb `%d` of `fmt` for an `int`. -/
def fmtD (n : Int) : String :=
  match n with
  | Int.ofNat m => Nat.repr m
  | Int.negSucc m => "-" ++ Nat.repr (m + 1)

/-- Go: the verb `%v` of `fmt` for a slice, `[a b c]`. -/
def fmtSlice (xs : List String) : String :=
  "[" ++ " ".intercalate xs ++ "]"

inductive Signal where
  | SIGINT
  | SIGTERM
deriving DecidableEq, Repr

/-- Go: `http.Server` as configured in `main`; the timeouts are in seconds. -/
structure HTTPServer where
  Handler : ServeMux
  ReadTimeout : Nat
  WriteTimeout : Nat

/-- The deferred calls of `main`. -/
inductive Deferred where
  | lnClose
  | cancel
  | shutdownCancel
deriving DecidableEq, Repr

/-- The calls `main` makes, in program order. -/
inductive Event where
  /-- Go: `log.Printf` and `log.Println`, with the formatted message. -/
  | log (msg : String)
  /-- Go: `log.Fatalf`: the message is logged and the process exits with status 1. -/
  | fatal (msg : String)
  /-- Go: `srv.Listen(network, addr)`. -/
  | listen (srv : Server) (network addr : String)
  /-- Go: `srv.LocalClient()`. -/
  | localClient
  /-- Go: `lc.StatusWithoutPeers(ctx)` under a timeout given in seconds. -/
  | statusWithoutPeers (timeout : Nat)
  /-- Go: `go func() { ... httpServer.Serve(ln) ... }()`. -/
  | goServe (httpServer : HTTPServer)
  /-- Go: `signal.Notify(quit, ...)`. -/
  | notify (sigs : List Signal)
  /-- Go: `<-quit` has delivered a signal. -/
  | received (sig : Signal)
  /-- Go: `httpServer.Shutdown(shutdownCtx)` under a timeout given in seconds. -/
  | httpShutdown (timeout : Nat)
  /-- Go: `srv.Close()`. -/
  | srvClose
  /-- A deferred call that runs when `main` returns. -/
  | deferred (d : Deferred)

/-- What the serving goroutine and the signal channel do while `main` waits
and shuts down.  The goroutine runs `httpServer.Serve(ln)` and calls
`log.Fatalf` when that returns an error other than `ErrServerClosed`; this can
happen before a signal arrives or, concurrently with `main`, after one. -/
inductive Serving where
  /-- A registered signal arrives, and `Serve` ends with `ErrServerClosed` or not at all. -/
  | signal (sig : Signal)
  /-- A registered signal arrives, and `Serve` returns an error other than
  `ErrServerClosed`: the goroutine reaches `log.Fatalf` when `main` has made
  `after` steps of its shutdown part (if `main` has not returned by then). -/
  | signalThenServeError (sig : Signal) (after : Nat) (err : String)
  /-- Before any signal, `Serve` returns an error other than `ErrServerClosed`. -/
  | serveError (err : String)
  /-- Neither happens: the process keeps serving. -/
  | forever
deriving DecidableEq, Repr

/-- The outcomes of the calls `main` makes.  Every call is represented by what
it returns: an error is given by its text, `none` means the call succeeded. -/
structure World where
  listenErr : Option String
  localClientErr : Option String
  /-- The error of the status query, or the addresses `status.TailscaleIPs`. -/
  status : Except String (List String)
  serving : Serving
  shutdownErr : Option String
  closeErr : Option String

/-- How the process ends. -/
inductive Exit where
  /-- The process exits with this status. -/
  | code (n : Nat)
  /-- A panic while registering the routes. -/
  | panic
  /-- The process does not end: it keeps waiting on the signal channel. -/
  | blocked
deriving DecidableEq, Repr

structure Outcome where
  trace : List Event
  exit : Exit

/-- The tsnet configuration `main` builds from the flags. -/
def newServer (f : Flags) : Server :=
  let srv : Server := { Hostname := f.hostname }
  if f.stateDir != "" then { srv with Dir := f.stateDir } else srv

/-- The log line an optional error produces: `if err != nil { log.Printf(format, err) }`. -/
def logIfErr (what : String) : Option String → List Event
  | some err => [Event.log (what ++ err)]
  | none => []

/-- The part of `main` after `<-quit` has delivered a signal. -/
def shutdownSequence (env : World) : Outcome :=
  let t := [Event.log "Shutting down server...", Event.httpShutdown 30]
  let t := t ++ logIfErr "HTTP server shutdown error: " env.shutdownErr
  let t := t ++ [Event.srvClose]
  let t := t ++ logIfErr "Tailscale server close error: " env.closeErr
  let t := t ++ [Event.log "Server shutdown complete"]
  -- main returns: the deferred calls run, last deferred first
  let t := t ++ [Event.deferred Deferred.shutdownCancel, Event.deferred Deferred.cancel,
    Event.deferred Deferred.lnClose]
  { trace := t, exit := Exit.code 0 }

/-- The function `main` of main.go. -/
def main (f : Flags) (env : World) : Outcome :=
  let srv := newServer f
  let t := [Event.log ("Starting Tailscale server with hostname: " ++ f.hostname),
    Event.listen srv "tcp" (":" ++ fmtD f.port)]
  match env.listenErr with
  | some err =>
    { trace := t ++ [Event.fatal ("Failed to start Tailscale listener: " ++ err)], exit := Exit.code 1 }
  | none =>
    let t := t ++ [Event.localClient]
    match env.localClientErr with
    | some err =>
      { trace := t ++ [Event.fatal ("Failed to get local client: " ++ err)], exit := Exit.code 1 }
    | none =>
      let t := t ++ [Event.statusWithoutPeers 60]
      let t := t ++
        (match env.status with
         | Except.error err => [Event.log ("Warning: Could not get Tailscale status: " ++ err)]
         | Except.ok ips => [Event.log ("Tailscale IP: " ++ fmtSlice ips)])
      match buildMux with
      | none => { trace := t, exit := Exit.panic }
      | some mux =>
        let httpServer : HTTPServer := { Handler := mux, ReadTimeout := 10, WriteTimeout := 10 }
        let t := t ++ [Event.goServe httpServer,
          Event.log ("HTTP server listening on Tailscale network at port " ++ fmtD f.port),
          Event.notify [Signal.SIGINT, Signal.SIGTERM]]
        match env.serving with
        | Serving.forever => { trace := t, exit := Exit.blocked }
        | Serving.serveError err =>
          { trace := t ++ [Event.fatal ("HTTP server error: " ++ err)], exit := Exit.code 1 }
        | Serving.signal sig =>
          let s := shutdownSequence env
          { trace := t ++ [Event.received sig] ++ s.trace, exit := s.exit }
        | Serving.signalThenServeError sig after err =>
          let s := shutdownSequence env
          if after < s.trace.length then
            -- the goroutine's log.Fatalf ends the process in the middle of the shutdown part
            { trace := t ++ [Event.received sig] ++ s.trace.take after ++
                [Event.fatal ("HTTP server error: " ++ err)],
              exit := Exit.code 1 }
          else
            { trace := t ++ [Event.received sig] ++ s.trace, exit := s.exit }

/-- Is the event a log line (`log.Printf`, `log.Println`). -/
def Event.isLog : Event → Bool
  | Event.log _ => true
  | _ => false

/-- The calls of a trace other than log lines. -/
def effects (t : List Event) : List Event :=
  t.filter (fun e => !e.isLog)

/-- The log lines of a trace. -/
def logs : List Event → List String
  | [] => []
  | Event.log msg :: t => msg :: logs t
  | _ :: t => logs t

/-- The events after the signal has been received. -/
def afterSignal : List Event → List Event
  | [] => []
  | Event.received _ :: t => t
  | _ :: t => afterSignal t

/-- The states of the shutdown coordinator. -/
inductive Phase where
  | RUNNING
  | DRAINING
  | CLOSED
deriving DecidableEq, Repr

/-- The state changes a trace goes through: serving starts RUNNING, the HTTP
shutdown call enters DRAINING, the client close enters CLOSED. -/
def phases : List Event → List Phase
  | [] => []
  | Event.goServe _ :: t => Phase.RUNNING :: phases t
  | Event.httpShutdown _ :: t => Phase.DRAINING :: phases t
  | Event.srvClose :: t => Phase.CLOSED :: phases t
  | _ :: t => phases t

def Event.isListen : Event → Bool
  | Event.listen _ _ _ => true
  | _ => false

def Event.isLocalClient : Event → Bool
  | Event.localClient => true
  | _ => false

def Event.isStatus : Event → Bool
  | Event.statusWithoutPeers _ => true
  | _ => false

def Event.isServe : Event → Bool
  | Event.goServe _ => true
  | _ => false

def Event.isShutdownStep : Event → Bool
  | Event.received _ => true
  | Event.httpShutdown _ => true
  | Event.srvClose => true
  | _ => false

def Event.isFatal : Event → Bool
  | Event.fatal _ => true
  | _ => false

/-- A sample environment in which every call succeeds and SIGTERM arrives. -/
def calmWorld : World :=
  { listenErr := none, localClientErr := none, status := Except.ok ["100.64.0.1"],
    serving := Serving.signal Signal.SIGTERM, shutdownErr := none, closeErr := none }

/-- Go: `httptest.NewRequest(method, target, nil)` for a target that is a plain path. -/
def NewRequest (method target : String) : Request :=
  { Method := method, URL := { Path := target }, RequestURI := target }

/-- A sample request with a query, a header and a body. -/
def busyRequest (method target : String) : Request :=
  { Method := method, URL := { Path := target, RawQuery := "a=1" }, Host := "hello-tailscale:80",
    RequestURI := target ++ "?a=1", Header := [("Accept", "text/plain")], Body := "payload" }

/-- A sample environment in which both shutdown steps fail. -/
def stormyWorld : World :=
  { listenErr := none, localClientErr := none, status := Except.error "context deadline exceeded",
    serving := Serving.signal Signal.SIGINT, shutdownErr := some "context deadline exceeded",
    closeErr := some "already closed" }

/-- A sample environment in which the listener cannot be obtained. -/
def offlineWorld : World :=
  { listenErr := some "tsnet: not logged in", localClientErr := none, status := Except.ok [],
    serving := Serving.forever, shutdownErr := none, closeErr := none }

/-- A sample environment in which the listener breaks right after the signal:
the goroutine ends the process when main has only logged that it shuts down. -/
def racingWorld : World :=
  { listenErr := none, localClientErr := none, status := Except.ok ["100.64.0.1"],
    serving := Serving.signalThenServeError Signal.SIGTERM 1 "accept: listener closed",
    shutdownErr := none, closeErr := none }

def Event.isHttpShutdown : Event → Bool
  | Event.httpShutdown _ => true
  | _ => false

def Event.isSrvClose : Event → Bool
  | Event.srvClose => true
  | _ => false

def Event.isReceived : Event → Bool
  | Event.received _ => true
  | _ => false

/-! ## Facts about substrings and the two literals -/

theorem Contains_append_left (s t x : String) (h : Contains s x) : Contains (s ++ t) x := by
  unfold Contains at *
  rw [String.data_append]
  exact List.IsInfix.trans h (List.infix_append' [] s.data t.data)

theorem Contains_append_right (s t x : String) (h : Contains t x) : Contains (s ++ t) x := by
  unfold Contains at *
  rw [String.data_append]
  exact List.IsInfix.trans h (List.suffix_append s.data t.data).isInfix

theorem helloPage_contains_greeting : Contains helloPage "Hello, World!" := by
  unfold helloPage
  iterate 5 apply Contains_append_left
  apply Contains_append_right
  decide

theorem notFound_body_no_greeting : ¬ Contains "404 page not found\n" "Hello, World!" := by
  decide

theorem empty_append_str (s : String) : "" ++ s = s := by
  apply String.ext
  simp [String.data_append]

/-! ## The handlers called directly -/

theorem helloHandler_root_eq (w : ResponseWriter) (r : Request) (h : r.URL.Path = "/") :
    helloHandler w r = Fprint (w.HeaderSet "Content-Type" "text/html; charset=utf-8") helloPage := by
  simp [helloHandler, h]

theorem helloHandler_other_eq (w : ResponseWriter) (r : Request) (h : r.URL.Path ≠ "/") :
    helloHandler w r = NotFound w r := by
  simp [helloHandler, h]

theorem notFound_fresh (r : Request) :
    (NotFound NewRecorder r).Result =
      { StatusCode := 404,
        Header := [("X-Content-Type-Options", "nosniff"), ("Content-Type", "text/plain; charset=utf-8")],
        Body := "404 page not found\n" } := by
  unfold NotFound
  decide

theorem helloPage_fresh :
    (Fprint (NewRecorder.HeaderSet "Content-Type" "text/html; charset=utf-8") helloPage).Result =
      { StatusCode := 200,
        Header := [("Content-Type", "text/html; charset=utf-8")],
        Body := helloPage } := by
  simp [Fprint, ResponseWriter.Write, ResponseWriter.WriteHeader, ResponseWriter.HeaderSet,
    ResponseWriter.Result, NewRecorder, Header.Set, empty_append_str]

theorem health_fresh (r : Request) :
    (healthHandler NewRecorder r).Result =
      { StatusCode := 200,
        Header := [("Content-Type", "application/json")],
        Body := healthBody } := by
  unfold healthHandler
  decide

theorem notFound_answer (r : Request) (h : r.URL.Path ≠ "/") :
    (helloHandler NewRecorder r).Result.StatusCode = 404 ∧
    Contains (helloHandler NewRecorder r).Result.Body "404 page not found" := by
  rw [helloHandler_other_eq _ _ h, notFound_fresh]
  exact ⟨rfl, by decide⟩

/-- C1: called on a fresh response with any path other than "/", helloHandler
answers 404, its body contains "404 page not found", and the body neither is
the HTML page nor contains the greeting. -/
theorem helloHandler_not_found (r : Request) (h : r.URL.Path ≠ "/") :
    (helloHandler NewRecorder r).Result.StatusCode = 404 ∧
    Contains (helloHandler NewRecorder r).Result.Body "404 page not found" ∧
    (helloHandler NewRecorder r).Result.Body ≠ helloPage ∧
    ¬ Contains (helloHandler NewRecorder r).Result.Body "Hello, World!" := by
  refine ⟨(notFound_answer r h).1, (notFound_answer r h).2, ?_, ?_⟩
  · rw [helloHandler_other_eq _ _ h, notFound_fresh]
    intro hEq
    apply notFound_body_no_greeting
    have hc := helloPage_contains_greeting
    rw [← hEq] at hc
    exact hc
  · rw [helloHandler_other_eq _ _ h, notFound_fresh]
    exact notFound_body_no_greeting

/-- Witness for C1 at the path "//". -/
theorem helloHandler_not_found_witness :
    (NewRequest "GET" "//").URL.Path ≠ "/" ∧
    ((helloHandler NewRecorder (NewRequest "GET" "//")).Result.StatusCode = 404 ∧
     Contains (helloHandler NewRecorder (NewRequest "GET" "//")).Result.Body
       "404 page not found" ∧
     (helloHandler NewRecorder (NewRequest "GET" "//")).Result.Body ≠ helloPage ∧
     ¬ Contains (helloHandler NewRecorder (NewRequest "GET" "//")).Result.Body
       "Hello, World!") :=
  ⟨by decide, helloHandler_not_found (NewRequest "GET" "//") (by decide)⟩

/-- C2: called on a fresh response with the path "/", helloHandler answers 200
with Content-Type "text/html; charset=utf-8", which contains "text/html", and
a body equal to the fixed page, which contains "Hello, World!". -/
theorem helloHandler_root (r : Request) (h : r.URL.Path = "/") :
    (helloHandler NewRecorder r).Result.StatusCode = 200 ∧
    (helloHandler NewRecorder r).Result.Header.Get "Content-Type" = "text/html; charset=utf-8" ∧
    Contains ((helloHandler NewRecorder r).Result.Header.Get "Content-Type") "text/html" ∧
    (helloHandler NewRecorder r).Result.Body = helloPage ∧
    Contains (helloHandler NewRecorder r).Result.Body "Hello, World!" := by
  rw [helloHandler_root_eq _ _ h, helloPage_fresh]
  exact ⟨rfl, by decide, by decide, rfl, helloPage_contains_greeting⟩

/-- Witness for C2 at a POST request for "/". -/
theorem helloHandler_root_witness :
    (NewRequest "POST" "/").URL.Path = "/" ∧
    ((helloHandler NewRecorder (NewRequest "POST" "/")).Result.StatusCode = 200 ∧
     (helloHandler NewRecorder (NewRequest "POST" "/")).Result.Header.Get
       "Content-Type" = "text/html; charset=utf-8" ∧
     Contains ((helloHandler NewRecorder (NewRequest "POST" "/")).Result.Header.Get
       "Content-Type") "text/html" ∧
     (helloHandler NewRecorder (NewRequest "POST" "/")).Result.Body = helloPage ∧
     Contains (helloHandler NewRecorder (NewRequest "POST" "/")).Result.Body
       "Hello, World!") :=
  ⟨rfl, helloHandler_root (NewRequest "POST" "/") rfl⟩

/-- C3: for every request, healthHandler on a fresh response answers 200 with
Content-Type exactly "application/json" as its only header and a body that is
exactly the 20-byte literal, nothing before or after it. -/
theorem healthHandler_fixed (r : Request) :
    (healthHandler NewRecorder r).Result.StatusCode = 200 ∧
    (healthHandler NewRecorder r).Result.Header.Get "Content-Type" = "application/json" ∧
    (healthHandler NewRecorder r).Result.Header = [("Content-Type", "application/json")] ∧
    (healthHandler NewRecorder r).Result.Body = "\x7b\"status\":\"healthy\"\x7d" ∧
    (healthHandler NewRecorder r).Result.Body.utf8ByteSize = 20 := by
  rw [health_fresh]
  exact ⟨rfl, by decide, rfl, by decide, by decide⟩

/-- C4: each handler is a function of the request path alone: two requests with
the same path leave any response writer in the same state (status, headers,
body), whatever their methods, headers and bodies. -/
theorem handlers_depend_on_path_only (w : ResponseWriter) (r1 r2 : Request)
    (h : r1.URL.Path = r2.URL.Path) :
    helloHandler w r1 = helloHandler w r2 ∧ healthHandler w r1 = healthHandler w r2 := by
  constructor
  · simp [helloHandler, NotFound, h]
  · rfl

/-- Witness for C4: a GET and a POST with different headers and bodies. -/
theorem handlers_depend_on_path_only_witness :
    (NewRequest "GET" "/x").URL.Path = (busyRequest "POST" "/x").URL.Path ∧
    (helloHandler NewRecorder (NewRequest "GET" "/x") =
      helloHandler NewRecorder (busyRequest "POST" "/x") ∧
     healthHandler NewRecorder (NewRequest "GET" "/x") =
      healthHandler NewRecorder (busyRequest "POST" "/x")) :=
  ⟨rfl, handlers_depend_on_path_only NewRecorder _ _ rfl⟩

/-! ## path.Clean keeps a rooted path rooted -/

theorem backtrack_rooted (l : List Char) (c : Char) (hne : l ≠ [])
    (hl : l.getLast? = some '/') :
    backtrack 1 l c ≠ [] ∧ (backtrack 1 l c).getLast? = some '/' := by
  induction l generalizing c with
  | nil => exact absurd rfl hne
  | cons x rest ih =>
    unfold backtrack
    split
    · rename_i hcond
      have hlen : 1 < (x :: rest).length := by
        simp only [Bool.and_eq_true, decide_eq_true_eq] at hcond
        exact hcond.1
      have hrest : rest ≠ [] := by
        intro h0
        rw [h0] at hlen
        simp at hlen
      have hlast : rest.getLast? = some '/' := by
        cases rest with
        | nil => exact absurd rfl hrest
        | cons y ys =>
          rw [List.getLast?_cons_cons] at hl
          exact hl
      exact ih x hrest hlast
    · exact ⟨hne, hl⟩

theorem getLast?_append_rooted (pre out : List Char) (hne : out ≠ [])
    (hl : out.getLast? = some '/') :
    pre ++ out ≠ [] ∧ (pre ++ out).getLast? = some '/' := by
  constructor
  · simp [hne]
  · rw [List.getLast?_append, hl]
    rfl

theorem cleanLoop_rooted (fuel : Nat) (rest out : List Char) (hne : out ≠ [])
    (hl : out.getLast? = some '/') :
    cleanLoop true fuel rest out 1 ≠ [] ∧ (cleanLoop true fuel rest out 1).getLast? = some '/' := by
  induction fuel generalizing rest out with
  | zero =>
    unfold cleanLoop
    exact ⟨hne, hl⟩
  | succ n ih =>
    cases rest with
    | nil =>
      unfold cleanLoop
      exact ⟨hne, hl⟩
    | cons c t =>
      unfold cleanLoop
      split
      · exact ih _ _ hne hl
      · split
        · exact ih _ _ hne hl
        · split
          · cases out with
            | nil => exact absurd rfl hne
            | cons last out1 =>
              simp only [Bool.not_true, Bool.false_eq_true, if_false]
              split
              · rename_i hlen
                have hout1 : out1 ≠ [] := by
                  intro h0
                  rw [h0] at hlen
                  simp at hlen
                have hlast : out1.getLast? = some '/' := by
                  cases out1 with
                  | nil => exact absurd rfl hout1
                  | cons y ys =>
                    rw [List.getLast?_cons_cons] at hl
                    exact hl
                have hb := backtrack_rooted out1 last hout1 hlast
                exact ih _ _ hb.1 hb.2
              · exact ih _ _ hne hl
          · have hout1 : (if (true && out.length != 1) || (!true && out.length != 0)
                then '/' :: out else out) ≠ [] ∧
                (if (true && out.length != 1) || (!true && out.length != 0)
                then '/' :: out else out).getLast? = some '/' := by
              split
              · exact getLast?_append_rooted ['/'] out hne hl
              · exact ⟨hne, hl⟩
            have happ := getLast?_append_rooted
              ((List.takeWhile (fun x => x != '/') (c :: t)).reverse) _ hout1.1 hout1.2
            exact ih _ _ happ.1 happ.2

/-! ## path.Clean never runs out of fuel -/

theorem dropWhile_length_le (t : List Char) (p : Char → Bool) :
    (t.dropWhile p).length ≤ t.length := by
  induction t with
  | nil => simp
  | cons x xs ih =>
    rw [List.dropWhile_cons]
    split
    · exact Nat.le_succ_of_le ih
    · exact Nat.le_refl _

theorem cleanLoop_fuel (rooted : Bool) (fuel : Nat) :
    ∀ (rest out : List Char) (dotdot : Nat), rest.length ≤ fuel →
      cleanLoop rooted fuel rest out dotdot = cleanLoop rooted rest.length rest out dotdot := by
  induction fuel using Nat.strong_induction_on with
  | _ n ih =>
    intro rest out dotdot hlen
    cases rest with
    | nil =>
      cases n <;> simp [cleanLoop]
    | cons c t =>
      cases n with
      | zero => simp at hlen
      | succ m =>
        have htm : t.length ≤ m := by simpa using hlen
        have key : ∀ (X o : List Char) (d : Nat), X.length ≤ t.length →
            cleanLoop rooted m X o d = cleanLoop rooted t.length X o d := by
          intro X o d hX
          rw [ih m (Nat.lt_succ_self m) X o d (Nat.le_trans hX htm)]
          rw [ih t.length (Nat.lt_succ_of_le htm) X o d hX]
        have htail : t.tail.length ≤ t.length := by simp
        simp only [List.length_cons]
        unfold cleanLoop
        split
        · exact key _ _ _ (Nat.le_refl _)
        · rename_i hc
          split
          · exact key _ _ _ (Nat.le_refl _)
          · split
            · cases out with
              | nil =>
                simp only []
                split
                · exact key _ _ _ htail
                · exact key _ _ _ htail
              | cons last out1 =>
                simp only []
                split
                · exact key _ _ _ htail
                · split
                  · exact key _ _ _ htail
                  · exact key _ _ _ htail
            · apply key
              have hcs : (c != '/') = true := by simpa using hc
              rw [List.dropWhile_cons, if_pos hcs]
              exact dropWhile_length_le _ _

theorem Clean_rooted (p : String) (h : p.data.head? = some '/') :
    (Clean p).data.head? = some '/' := by
  have hp : p ≠ "" := by
    intro h0
    rw [h0] at h
    exact absurd h (by decide)
  have hr := cleanLoop_rooted p.data.length p.data.tail ['/'] (by simp) rfl
  simp only [Clean, beq_iff_eq, hp, if_false, h, if_true]
  have hlen : (cleanLoop true p.data.length p.data.tail ['/'] 1).length ≠ 0 := by
    intro h0
    exact hr.1 (List.length_eq_zero.mp h0)
  simp only [hlen, if_false]
  rw [List.head?_reverse]
  exact hr.2

theorem cleanPath_tail_rooted (q : String) (hq : q.data.head? = some '/') :
    (if q.data.getLast? == some '/' && Clean q != "/" then
        if q.utf8ByteSize == (Clean q).utf8ByteSize + 1 && decide ((Clean q).data <+: q.data)
        then q else Clean q ++ "/"
      else Clean q).data.head? = some '/' := by
  have hc := Clean_rooted q hq
  split
  · split
    · exact hq
    · rw [String.data_append]
      cases hd : (Clean q).data with
      | nil => rw [hd] at hc; exact absurd hc (by simp)
      | cons x xs => rw [hd] at hc; simpa using hc
  · exact hc

theorem cleanPath_rooted (p : String) : (cleanPath p).data.head? = some '/' := by
  unfold cleanPath
  split
  · rfl
  · have hq : (if p.data.head? != some '/' then "/" ++ p else p).data.head? = some '/' := by
      split
      · rfl
      · rename_i hh
        simpa using hh
    exact cleanPath_tail_rooted _ hq

theorem clean_path_is_rooted (p : String) (h : cleanPath p = p) : p.data.head? = some '/' := by
  have := cleanPath_rooted p
  rw [h] at this
  exact this

/-! ## The router built in main -/

theorem buildMux_eq : buildMux = some mainMux := by
  rfl

theorem append_slash_ne_health (x : String) : x ++ "/" ≠ "/health" := by
  intro h
  have hd := congrArg String.data h
  rw [String.data_append] at hd
  have hl := congrArg List.getLast? hd
  simp at hl

theorem append_slash_eq_slash (x : String) (h : x ++ "/" = "/") : x = "" := by
  have hd := congrArg String.data h
  rw [String.data_append] at hd
  have hl := congrArg List.length hd
  simp at hl
  apply String.ext
  exact List.length_eq_zero.mp (by simpa using hl)

theorem mainMux_lookup (key : String) :
    mainMux.lookup key =
      if key = "/health" then some { h := healthHandler, pattern := "/health" }
      else if key = "/" then some { h := helloHandler, pattern := "/" }
      else none := by
  unfold ServeMux.lookup mainMux
  by_cases h1 : key = "/health"
  · subst h1; rfl
  · by_cases h2 : key = "/"
    · subst h2; rfl
    · have e1 : ("/health" == key) = false := by simpa using Ne.symm h1
      have e2 : ("/" == key) = false := by simpa using Ne.symm h2
      simp [List.find?, e1, e2, h1, h2]

theorem mainMux_lookup_append_slash (x : String) (hx : x ≠ "") :
    (mainMux.lookup (x ++ "/")).isSome = false := by
  rw [mainMux_lookup]
  have h1 := append_slash_ne_health x
  have h2 : x ++ "/" ≠ "/" := fun h => hx (append_slash_eq_slash x h)
  simp [h1, h2]

theorem mainMux_no_slash_redirect (host path : String) :
    mainMux.shouldRedirectRLocked host path = false := by
  unfold ServeMux.shouldRedirectRLocked
  by_cases hp : path = ""
  · subst hp
    split
    · rfl
    · rfl
  · have hhp : host ++ path ≠ "" := by
      intro h
      apply hp
      have hd := congrArg String.data h
      rw [String.data_append] at hd
      apply String.ext
      exact (List.append_eq_nil.mp hd).2
    have e1 := mainMux_lookup_append_slash path hp
    have e2 := mainMux_lookup_append_slash (host ++ path) hhp
    simp [e1, e2]

theorem mainMux_match (path : String) :
    mainMux.match_ path =
      if path = "/health" then some { h := healthHandler, pattern := "/health" }
      else if path = "/" then some { h := helloHandler, pattern := "/" }
      else if ['/'] <+: path.data then some { h := helloHandler, pattern := "/" }
      else none := by
  unfold ServeMux.match_
  rw [mainMux_lookup]
  by_cases h1 : path = "/health"
  · simp [h1]
  · by_cases h2 : path = "/"
    · simp [h2]
    · simp only [h1, h2, if_false]
      by_cases h3 : ['/'] <+: path.data
      · simp [mainMux, List.find?, h3]
      · simp [mainMux, List.find?, h3]

theorem mainMux_handler (host path : String) :
    mainMux.handler host path =
      if path = "/health" then (healthHandler, "/health")
      else if ['/'] <+: path.data then (helloHandler, "/")
      else (NotFoundHandler, "") := by
  unfold ServeMux.handler
  have hh : mainMux.hosts = false := rfl
  simp only [hh, Bool.false_eq_true, if_false]
  rw [mainMux_match]
  by_cases h1 : path = "/health"
  · simp [h1]
  · by_cases h2 : path = "/"
    · subst h2
      simp
    · by_cases h3 : ['/'] <+: path.data
      · simp [h1, h2, h3]
      · simp [h1, h2, h3]

theorem rooted_has_slash (path : String) (h : path.data.head? = some '/') :
    ['/'] <+: path.data := by
  cases hd : path.data with
  | nil => rw [hd] at h; exact absurd h (by simp)
  | cons x xs =>
    rw [hd] at h
    simp at h
    subst h
    exact ⟨xs, rfl⟩

theorem mainMux_Handler_clean (lib : Lib) (r : Request)
    (hclean : cleanPath r.URL.Path = r.URL.Path) :
    mainMux.Handler lib r =
      if r.URL.Path = "/health" then (healthHandler, "/health") else (helloHandler, "/") := by
  have hs := rooted_has_slash _ (clean_path_is_rooted _ hclean)
  unfold ServeMux.Handler
  simp only [mainMux_no_slash_redirect, Bool.false_eq_true, if_false, hclean, bne_self_eq_false,
    mainMux_handler, hs, if_true]
  split <;> rfl

theorem helloHandler_status (r : Request) :
    (helloHandler NewRecorder r).Result.StatusCode = if r.URL.Path = "/" then 200 else 404 := by
  by_cases h : r.URL.Path = "/"
  · rw [helloHandler_root_eq _ _ h, helloPage_fresh]
    simp [h]
  · rw [helloHandler_other_eq _ _ h, notFound_fresh]
    simp [h]

theorem Redirect_status (lib : Lib) (r : Request) (url : String) (code : Nat) :
    (Redirect lib NewRecorder r url code).Result.StatusCode = code := by
  unfold Redirect
  simp only [NewRecorder, Header.has, List.any_nil, Bool.not_false, Bool.true_and]
  split <;> split <;>
    simp [Fprintln, ResponseWriter.Write, ResponseWriter.WriteHeader, ResponseWriter.HeaderSet,
      ResponseWriter.Result]

theorem badRequest_status (r : Request) :
    ((if r.ProtoAtLeast 1 1 then NewRecorder.HeaderSet "Connection" "close"
      else NewRecorder).WriteHeader StatusBadRequest).Result.StatusCode = 400 := by
  split <;> rfl

/-- C5, as stated, fails: the path "//" is neither "/" nor "/health", yet the
router does not hand the request to helloHandler and does not answer 404; it
answers 301, redirecting to the cleaned path "/". -/
theorem router_redirects_double_slash :
    (NewRequest "GET" "//").URL.Path ≠ "/" ∧
    (NewRequest "GET" "//").URL.Path ≠ "/health" ∧
    (routed plainLib (NewRequest "GET" "//")).StatusCode = 301 ∧
    (routed plainLib (NewRequest "GET" "//")).Header.Get "Location" = "/" ∧
    (routed plainLib (NewRequest "GET" "//")).StatusCode ≠ 404 ∧
    ¬ Contains (routed plainLib (NewRequest "GET" "//")).Body "404 page not found" ∧
    (routed plainLib (NewRequest "GET" "//")) ≠
      (helloHandler NewRecorder (NewRequest "GET" "//")).Result := by
  decide

/-- C5, amended: for every request whose path is in the router's canonical
form (cleanPath leaves it unchanged) and whose request-URI is not "*", the
router built in main dispatches to healthHandler when the path is exactly
"/health" and to helloHandler for every other path; the routed status is 200
exactly when the path is "/" or "/health", and otherwise it is 404 with a body
containing "404 page not found". -/
theorem router_dispatch (lib : Lib) (r : Request)
    (hclean : cleanPath r.URL.Path = r.URL.Path) (huri : r.RequestURI ≠ "*") :
    buildMux = some mainMux ∧
    (r.URL.Path = "/health" → mainMux.Handler lib r = (healthHandler, "/health")) ∧
    (r.URL.Path ≠ "/health" → mainMux.Handler lib r = (helloHandler, "/")) ∧
    ((routed lib r).StatusCode = 200 ↔ (r.URL.Path = "/" ∨ r.URL.Path = "/health")) ∧
    (r.URL.Path ≠ "/" → r.URL.Path ≠ "/health" →
      (routed lib r).StatusCode = 404 ∧ Contains (routed lib r).Body "404 page not found") := by
  have hH := mainMux_Handler_clean lib r hclean
  have hR : routed lib r = ((mainMux.Handler lib r).1 NewRecorder r).Result := by
    unfold routed ServeMux.ServeHTTP
    simp [huri]
  refine ⟨buildMux_eq, ?_, ?_, ?_, ?_⟩
  · intro h
    rw [hH]
    simp [h]
  · intro h
    rw [hH]
    simp [h]
  · rw [hR, hH]
    by_cases h1 : r.URL.Path = "/health"
    · simp only [h1, if_true, or_true, iff_true]
      rw [health_fresh]
    · simp only [h1, if_false, or_false]
      rw [helloHandler_status]
      by_cases h2 : r.URL.Path = "/"
      · simp [h2]
      · simp [h2]
  · intro h2 h1
    rw [hR, hH]
    simp only [h1, if_false]
    exact notFound_answer r h2

/-- Witness for C5, amended, at GET "/missing". -/
theorem router_dispatch_witness :
    (cleanPath (NewRequest "GET" "/missing").URL.Path = (NewRequest "GET" "/missing").URL.Path ∧
     (NewRequest "GET" "/missing").RequestURI ≠ "*") ∧
    (buildMux = some mainMux ∧
     ((NewRequest "GET" "/missing").URL.Path = "/health" →
        mainMux.Handler plainLib (NewRequest "GET" "/missing") = (healthHandler, "/health")) ∧
     ((NewRequest "GET" "/missing").URL.Path ≠ "/health" →
        mainMux.Handler plainLib (NewRequest "GET" "/missing") = (helloHandler, "/")) ∧
     ((routed plainLib (NewRequest "GET" "/missing")).StatusCode = 200 ↔
        ((NewRequest "GET" "/missing").URL.Path = "/" ∨
         (NewRequest "GET" "/missing").URL.Path = "/health")) ∧
     ((NewRequest "GET" "/missing").URL.Path ≠ "/" →
       (NewRequest "GET" "/missing").URL.Path ≠ "/health" →
       (routed plainLib (NewRequest "GET" "/missing")).StatusCode = 404 ∧
       Contains (routed plainLib (NewRequest "GET" "/missing")).Body "404 page not found")) :=
  ⟨⟨by decide, by decide⟩,
    router_dispatch plainLib (NewRequest "GET" "/missing") (by decide) (by decide)⟩

/-- C6, as stated, fails: for GET "//health" the router answers 301, which is
neither 200 nor 404. -/
theorem router_status_other_than_200_404 :
    (routed plainLib (NewRequest "GET" "//health")).StatusCode = 301 ∧
    ¬ ((routed plainLib (NewRequest "GET" "//health")).StatusCode = 200 ∨
       (routed plainLib (NewRequest "GET" "//health")).StatusCode = 404) := by
  decide

theorem Redirect_location (lib : Lib) (r : Request) (url : String) (code : Nat) :
    (Redirect lib NewRecorder r url code).Result.Header.Get "Location" =
      lib.hexEscapeNonASCII (lib.resolveTarget r url) := by
  have hne : ("Location" != "Content-Type") = true := by decide
  have hne2 : ("Content-Type" == "Location") = false := by decide
  unfold Redirect
  simp only [NewRecorder, Header.has, List.any_nil, Bool.not_false, Bool.true_and]
  split <;> split <;>
    simp [Fprintln, ResponseWriter.Write, ResponseWriter.WriteHeader, ResponseWriter.HeaderSet,
      ResponseWriter.Result, Header.Set, Header.Get, List.find?, List.filter, hne, hne2]

theorem badRequest_location (r : Request) :
    ((if r.ProtoAtLeast 1 1 then NewRecorder.HeaderSet "Connection" "close"
      else NewRecorder).WriteHeader StatusBadRequest).Result.Header.Get "Location" = "" := by
  split <;> decide

theorem mainMux_handler_result (host : String) (r : Request) :
    ((mainMux.handler host r.URL.Path).1 NewRecorder r).Result =
      if r.URL.Path = "/health" then (healthHandler NewRecorder r).Result
      else if r.URL.Path = "/" then (helloHandler NewRecorder r).Result
      else (NotFound NewRecorder r).Result := by
  rw [mainMux_handler]
  by_cases h1 : r.URL.Path = "/health"
  · simp [h1]
  · by_cases h2 : r.URL.Path = "/"
    · have hs : ['/'] <+: r.URL.Path.data := by
        rw [h2]
      simp [h1, h2, hs]
    · simp only [h1, h2, if_false]
      split
      · show (helloHandler NewRecorder r).Result = _
        rw [helloHandler_other_eq _ _ h2]
      · rfl

theorem routed_star (lib : Lib) (r : Request) (huri : r.RequestURI = "*") :
    routed lib r =
      ((if r.ProtoAtLeast 1 1 then NewRecorder.HeaderSet "Connection" "close"
        else NewRecorder).WriteHeader StatusBadRequest).Result := by
  unfold routed ServeMux.ServeHTTP
  simp [huri]

theorem routed_redirect (lib : Lib) (r : Request) (huri : r.RequestURI ≠ "*")
    (hm : r.Method ≠ "CONNECT") (hne : cleanPath r.URL.Path ≠ r.URL.Path) :
    routed lib r =
      (Redirect lib NewRecorder r
        (lib.urlString { Path := cleanPath r.URL.Path, RawQuery := r.URL.RawQuery })
        StatusMovedPermanently).Result := by
  unfold routed ServeMux.ServeHTTP ServeMux.Handler
  simp [huri, hm, hne, mainMux_no_slash_redirect, RedirectHandler]

theorem routed_handler (lib : Lib) (r : Request) (huri : r.RequestURI ≠ "*")
    (h : r.Method = "CONNECT" ∨ cleanPath r.URL.Path = r.URL.Path) :
    routed lib r =
      if r.URL.Path = "/health" then (healthHandler NewRecorder r).Result
      else if r.URL.Path = "/" then (helloHandler NewRecorder r).Result
      else (NotFound NewRecorder r).Result := by
  unfold routed ServeMux.ServeHTTP ServeMux.Handler
  by_cases hm : r.Method = "CONNECT"
  · simp only [huri, hm, beq_iff_eq, if_false, if_true, mainMux_no_slash_redirect,
      Bool.false_eq_true]
    exact mainMux_handler_result _ r
  · have hc : cleanPath r.URL.Path = r.URL.Path := by
      rcases h with h | h
      · exact absurd h hm
      · exact h
    simp only [huri, hm, beq_iff_eq, if_false, mainMux_no_slash_redirect, Bool.false_eq_true, hc,
      bne_self_eq_false]
    exact mainMux_handler_result _ r

/-- C6, amended: each handler, called directly on a fresh response, writes
status 200 or 404 and nothing else (healthHandler always 200).  The router
built in main answers every request with exactly one of four statuses: 400
when the request-URI is "*"; otherwise 301, with the Location header carrying
the cleaned path as the library renders it, when the method is not CONNECT and
the path is not in canonical form; otherwise 200 when the path is "/" or
"/health" and 404 for every other path.  No status of 500 or above occurs. -/
theorem status_codes (lib : Lib) (r : Request) :
    ((helloHandler NewRecorder r).Result.StatusCode = 200 ∨
     (helloHandler NewRecorder r).Result.StatusCode = 404) ∧
    (healthHandler NewRecorder r).Result.StatusCode = 200 ∧
    (routed lib r).StatusCode =
      (if r.RequestURI = "*" then 400
       else if r.Method ≠ "CONNECT" ∧ cleanPath r.URL.Path ≠ r.URL.Path then 301
       else if r.URL.Path = "/" ∨ r.URL.Path = "/health" then 200
       else 404) ∧
    (routed lib r).Header.Get "Location" =
      (if r.RequestURI ≠ "*" ∧ r.Method ≠ "CONNECT" ∧ cleanPath r.URL.Path ≠ r.URL.Path then
        lib.hexEscapeNonASCII (lib.resolveTarget r
          (lib.urlString { Path := cleanPath r.URL.Path, RawQuery := r.URL.RawQuery }))
       else "") ∧
    ((routed lib r).StatusCode = 200 ∨ (routed lib r).StatusCode = 404 ∨
     (routed lib r).StatusCode = 301 ∨ (routed lib r).StatusCode = 400) ∧
    (routed lib r).StatusCode < 500 := by
  have hhello : (helloHandler NewRecorder r).Result.StatusCode = 200 ∨
      (helloHandler NewRecorder r).Result.StatusCode = 404 := by
    rw [helloHandler_status]
    split
    · exact Or.inl rfl
    · exact Or.inr rfl
  have hhealth : (healthHandler NewRecorder r).Result.StatusCode = 200 := by
    rw [health_fresh]
  have hstatus : (routed lib r).StatusCode =
      (if r.RequestURI = "*" then 400
       else if r.Method ≠ "CONNECT" ∧ cleanPath r.URL.Path ≠ r.URL.Path then 301
       else if r.URL.Path = "/" ∨ r.URL.Path = "/health" then 200
       else 404) ∧
      (routed lib r).Header.Get "Location" =
      (if r.RequestURI ≠ "*" ∧ r.Method ≠ "CONNECT" ∧ cleanPath r.URL.Path ≠ r.URL.Path then
        lib.hexEscapeNonASCII (lib.resolveTarget r
          (lib.urlString { Path := cleanPath r.URL.Path, RawQuery := r.URL.RawQuery }))
       else "") := by
    by_cases huri : r.RequestURI = "*"
    · rw [routed_star lib r huri]
      simp only [huri, if_true, ne_eq, not_true_eq_false, false_and, if_false]
      exact ⟨badRequest_status r, badRequest_location r⟩
    · by_cases hred : r.Method ≠ "CONNECT" ∧ cleanPath r.URL.Path ≠ r.URL.Path
      · rw [routed_redirect lib r huri hred.1 hred.2]
        simp only [huri, if_false, hred, and_self, if_true, ne_eq, not_false_eq_true]
        exact ⟨Redirect_status lib r _ _, Redirect_location lib r _ _⟩
      · have h : r.Method = "CONNECT" ∨ cleanPath r.URL.Path = r.URL.Path := by
          by_cases hm : r.Method = "CONNECT"
          · exact Or.inl hm
          · right
            by_contra hc
            exact hred ⟨hm, hc⟩
        have hred2 : ¬ (r.RequestURI ≠ "*" ∧ r.Method ≠ "CONNECT" ∧
            cleanPath r.URL.Path ≠ r.URL.Path) := fun hh => hred hh.2
        rw [routed_handler lib r huri h, if_neg huri, if_neg hred, if_neg hred2]
        by_cases h1 : r.URL.Path = "/health"
        · rw [if_pos h1, if_pos (Or.inr h1), health_fresh]
          exact ⟨rfl, by decide⟩
        · by_cases h2 : r.URL.Path = "/"
          · rw [if_neg h1, if_pos h2, if_pos (Or.inl h2), helloHandler_root_eq _ _ h2,
              helloPage_fresh]
            exact ⟨rfl, by decide⟩
          · rw [if_neg h1, if_neg h2, if_neg (not_or.mpr ⟨h2, h1⟩), notFound_fresh]
            exact ⟨rfl, by decide⟩
  have hfour : (routed lib r).StatusCode = 200 ∨ (routed lib r).StatusCode = 404 ∨
      (routed lib r).StatusCode = 301 ∨ (routed lib r).StatusCode = 400 := by
    rw [hstatus.1]
    split
    · exact Or.inr (Or.inr (Or.inr rfl))
    · split
      · exact Or.inr (Or.inr (Or.inl rfl))
      · split
        · exact Or.inl rfl
        · exact Or.inr (Or.inl rfl)
  refine ⟨hhello, hhealth, hstatus.1, hstatus.2, hfour, ?_⟩
  rcases hfour with h | h | h | h <;> omega

/-! ## The process life cycle -/

/-- C7, as stated, fails: a signal has been received, yet the process ends with
status 1 before the HTTP shutdown and the client close were invoked and before
completion was logged, because the serving goroutine hit a serve error and
called log.Fatalf. -/
theorem shutdown_cut_short_by_serve_error :
    racingWorld.listenErr = none ∧ racingWorld.localClientErr = none ∧
    (main flagDefaults racingWorld).trace.any Event.isReceived = true ∧
    (main flagDefaults racingWorld).exit = Exit.code 1 ∧
    (main flagDefaults racingWorld).trace.any Event.isHttpShutdown = false ∧
    (main flagDefaults racingWorld).trace.any Event.isSrvClose = false ∧
    logs (afterSignal (main flagDefaults racingWorld).trace) = ["Shutting down server..."] ∧
    (main flagDefaults racingWorld).trace.any Event.isFatal = true := by
  decide

/-- C7, amended: once listener and control handle were obtained and a signal has
been received, and unless the serving goroutine ends the process through a
fatal serve error, main runs exactly this sequence and ends with exit status 0:
it logs that it shuts down, invokes the HTTP shutdown (30 s), logs its error if
there is one, invokes the client close, logs its error if there is one, logs
completion, and runs its deferred calls; this holds whatever the two sub-steps
return; the phases are RUNNING, DRAINING, CLOSED and nothing fatal occurs. -/
theorem shutdown_completes (f : Flags) (env : World) (sig : Signal)
    (hl : env.listenErr = none) (hc : env.localClientErr = none)
    (hs : env.serving = Serving.signal sig) :
    (main f env).exit = Exit.code 0 ∧
    afterSignal (main f env).trace =
      [Event.log "Shutting down server...", Event.httpShutdown 30] ++
      (match env.shutdownErr with
        | some e => [Event.log ("HTTP server shutdown error: " ++ e)]
        | none => []) ++
      [Event.srvClose] ++
      (match env.closeErr with
        | some e => [Event.log ("Tailscale server close error: " ++ e)]
        | none => []) ++
      [Event.log "Server shutdown complete", Event.deferred Deferred.shutdownCancel,
        Event.deferred Deferred.cancel, Event.deferred Deferred.lnClose] ∧
    effects (afterSignal (main f env).trace) =
      [Event.httpShutdown 30, Event.srvClose, Event.deferred Deferred.shutdownCancel,
        Event.deferred Deferred.cancel, Event.deferred Deferred.lnClose] ∧
    phases (main f env).trace = [Phase.RUNNING, Phase.DRAINING, Phase.CLOSED] ∧
    (main f env).trace.any Event.isFatal = false := by
  obtain ⟨l, c, st, sv, sh, cl⟩ := env
  simp only at hl hc hs
  subst hl hc hs
  unfold main
  simp only [buildMux_eq]
  cases st <;> cases sh <;> cases cl <;> exact ⟨rfl, rfl, rfl, rfl, rfl⟩

/-- Witness for C7, amended: both the HTTP shutdown and the client close fail. -/
theorem shutdown_completes_witness :
    (stormyWorld.listenErr = none ∧ stormyWorld.localClientErr = none ∧
      stormyWorld.serving = Serving.signal Signal.SIGINT) ∧
    ((main flagDefaults stormyWorld).exit = Exit.code 0 ∧
     afterSignal (main flagDefaults stormyWorld).trace =
       [Event.log "Shutting down server...", Event.httpShutdown 30] ++
       (match stormyWorld.shutdownErr with
         | some e => [Event.log ("HTTP server shutdown error: " ++ e)]
         | none => []) ++
       [Event.srvClose] ++
       (match stormyWorld.closeErr with
         | some e => [Event.log ("Tailscale server close error: " ++ e)]
         | none => []) ++
       [Event.log "Server shutdown complete", Event.deferred Deferred.shutdownCancel,
         Event.deferred Deferred.cancel, Event.deferred Deferred.lnClose] ∧
     effects (afterSignal (main flagDefaults stormyWorld).trace) =
       [Event.httpShutdown 30, Event.srvClose, Event.deferred Deferred.shutdownCancel,
         Event.deferred Deferred.cancel, Event.deferred Deferred.lnClose] ∧
     phases (main flagDefaults stormyWorld).trace = [Phase.RUNNING, Phase.DRAINING, Phase.CLOSED] ∧
     (main flagDefaults stormyWorld).trace.any Event.isFatal = false) :=
  ⟨⟨rfl, rfl, rfl⟩, shutdown_completes flagDefaults stormyWorld Signal.SIGINT rfl rfl rfl⟩

/-- C8: when the listener or the control handle cannot be obtained, main ends
at once with exit status 1: the failing call is followed directly by the fatal
log line, Listen was called exactly once, no status query was made, the HTTP
server was not started and no step of the shutdown sequence ran; after a
listener failure not even the control handle was requested. -/
theorem startup_failure_is_fatal (f : Flags) (env : World)
    (h : env.listenErr ≠ none ∨ env.localClientErr ≠ none) :
    (main f env).exit = Exit.code 1 ∧
    (∀ err, env.listenErr = some err →
      (main f env).trace =
        [Event.log ("Starting Tailscale server with hostname: " ++ f.hostname),
          Event.listen (newServer f) "tcp" (":" ++ fmtD f.port),
          Event.fatal ("Failed to start Tailscale listener: " ++ err)]) ∧
    (∀ err, env.listenErr = none → env.localClientErr = some err →
      (main f env).trace =
        [Event.log ("Starting Tailscale server with hostname: " ++ f.hostname),
          Event.listen (newServer f) "tcp" (":" ++ fmtD f.port),
          Event.localClient,
          Event.fatal ("Failed to get local client: " ++ err)]) ∧
    (main f env).trace.countP Event.isListen = 1 ∧
    (main f env).trace.countP Event.isLocalClient ≤ 1 ∧
    (main f env).trace.any Event.isStatus = false ∧
    (main f env).trace.any Event.isServe = false ∧
    (main f env).trace.any Event.isShutdownStep = false := by
  obtain ⟨l, c, st, sv, sh, cl⟩ := env
  simp only at h
  cases l with
  | some e =>
    unfold main
    refine ⟨rfl, ?_, ?_, rfl, Nat.le_trans (Nat.le_of_eq (rfl : _ = 0)) (Nat.zero_le 1),
      rfl, rfl, rfl⟩
    · intro err herr
      simp only [Option.some.injEq] at herr
      subst herr
      rfl
    · intro err herr
      exact absurd herr (by simp)
  | none =>
    cases c with
    | none => simp at h
    | some e =>
      unfold main
      refine ⟨rfl, ?_, ?_, rfl, Nat.le_of_eq rfl, rfl, rfl, rfl⟩
      · intro err herr
        exact absurd herr (by simp)
      · intro err _ herr
        simp only [Option.some.injEq] at herr
        subst herr
        rfl

/-- Witness for C8: the listener cannot be obtained. -/
theorem startup_failure_is_fatal_witness :
    (offlineWorld.listenErr ≠ none ∨ offlineWorld.localClientErr ≠ none) ∧
    (main flagDefaults offlineWorld).exit = Exit.code 1 ∧
    (main flagDefaults offlineWorld).trace.countP Event.isListen = 1 ∧
    (main flagDefaults offlineWorld).trace.countP Event.isLocalClient = 0 ∧
    (main flagDefaults offlineWorld).trace.any Event.isStatus = false ∧
    (main flagDefaults offlineWorld).trace.any Event.isServe = false ∧
    (main flagDefaults offlineWorld).trace.any Event.isShutdownStep = false :=
  have h := startup_failure_is_fatal flagDefaults offlineWorld (Or.inl (by decide))
  ⟨Or.inl (by decide), h.1, h.2.2.2.1, by decide, h.2.2.2.2.2.1, h.2.2.2.2.2.2.1,
    h.2.2.2.2.2.2.2⟩

/-- C9: with listener and control handle obtained, a failed status query and a
successful one lead to the same calls after it and to the same end of the
process: the HTTP server is started with the router of main and timeouts of
10 s, then the signals are registered; the two runs differ in one log line
only. -/
theorem status_failure_is_not_fatal (f : Flags) (env : World) (err : String) (ips : List String)
    (hl : env.listenErr = none) (hc : env.localClientErr = none) :
    effects (main f { env with status := Except.error err }).trace =
      effects (main f { env with status := Except.ok ips }).trace ∧
    (main f { env with status := Except.error err }).exit =
      (main f { env with status := Except.ok ips }).exit ∧
    (effects (main f { env with status := Except.error err }).trace).take 5 =
      [Event.listen (newServer f) "tcp" (":" ++ fmtD f.port), Event.localClient,
        Event.statusWithoutPeers 60,
        Event.goServe { Handler := mainMux, ReadTimeout := 10, WriteTimeout := 10 },
        Event.notify [Signal.SIGINT, Signal.SIGTERM]] ∧
    (∃ first rest,
      logs (main f { env with status := Except.error err }).trace =
        first :: ("Warning: Could not get Tailscale status: " ++ err) :: rest ∧
      logs (main f { env with status := Except.ok ips }).trace =
        first :: ("Tailscale IP: " ++ fmtSlice ips) :: rest) := by
  obtain ⟨l, c, st, sv, sh, cl⟩ := env
  simp only at hl hc
  subst hl hc
  unfold main
  simp only [buildMux_eq]
  cases sv <;> cases sh <;> cases cl <;>
    first
    | exact ⟨rfl, rfl, rfl, _, _, rfl, rfl⟩
    | (simp only [shutdownSequence, logIfErr, List.cons_append, List.nil_append, List.append_nil,
        List.length_cons, List.length_nil]
       split <;> exact ⟨rfl, rfl, rfl, _, _, rfl, rfl⟩)

/-- Witness for C9: the status query times out and the run goes on to serve. -/
theorem status_failure_is_not_fatal_witness :
    (calmWorld.listenErr = none ∧ calmWorld.localClientErr = none) ∧
    (effects (main flagDefaults { calmWorld with status := Except.error "timeout" }).trace).take 5 =
      [Event.listen (newServer flagDefaults) "tcp" (":" ++ fmtD flagDefaults.port),
        Event.localClient, Event.statusWithoutPeers 60,
        Event.goServe { Handler := mainMux, ReadTimeout := 10, WriteTimeout := 10 },
        Event.notify [Signal.SIGINT, Signal.SIGTERM]] ∧
    (main flagDefaults { calmWorld with status := Except.error "timeout" }).exit = Exit.code 0 :=
  have h := status_failure_is_not_fatal flagDefaults calmWorld "timeout" ["100.64.0.1"] rfl rfl
  ⟨⟨rfl, rfl⟩, h.2.2.1, h.2.1.trans rfl⟩

/-- C10: for every hostname, port and state directory, the client is configured
with that hostname, its state directory is the given one when that is non-empty
and stays at the zero value (unset) when it is empty, and the first call is
Listen for "tcp" at ":" followed by the port in decimal; the flag defaults are
"hello-tailscale", 80 and the empty string, giving the address ":80". -/
theorem config_from_flags (f : Flags) (env : World) :
    (newServer f).Hostname = f.hostname ∧
    (newServer f).Dir = (if f.stateDir = "" then "" else f.stateDir) ∧
    (main f env).trace.take 2 =
      [Event.log ("Starting Tailscale server with hostname: " ++ f.hostname),
        Event.listen (newServer f) "tcp" (":" ++ fmtD f.port)] ∧
    fmtD f.port = toString f.port ∧
    flagDefaults = { hostname := "hello-tailscale", port := 80, stateDir := "" } ∧
    newServer flagDefaults = { Hostname := "hello-tailscale", Dir := "" } ∧
    ":" ++ fmtD flagDefaults.port = ":80" := by
  refine ⟨?_, ?_, ?_, ?_, rfl, by decide, by decide⟩
  · unfold newServer
    split <;> rfl
  · unfold newServer
    by_cases hd : f.stateDir = ""
    · simp [hd]
    · simp [hd]
  · obtain ⟨l, c, st, sv, sh, cl⟩ := env
    unfold main
    cases l with
    | some e => rfl
    | none =>
      cases c with
      | some e => rfl
      | none =>
        simp only [buildMux_eq]
        cases st <;> cases sv <;> first | rfl | (simp only []; split <;> rfl)
  · cases f.port <;> rfl

end HelloTailscale
